import Mathlib

/-!
Shallow embedding of the bee-brain repository for specification checking.

Covered source files:
* src/llmInteract.py   — the LLM chat client and its streaming loop (chat)
* src/slack_utilities.py — fetch_thread_message
* src/beebrain_app.py  — handle_messages and the root route (index)
* src/AiToolTag.py     — aitool tagging and generate_json_description

Python exceptions are modelled with an explicit result type PyResult;
machine mutation (list.insert on the argument of chat) is modelled by
returning the post-call state of the mutated sequence explicitly.
-/

namespace BeeBrain

/-- Outcome of a Python call: it either raises an exception of type e or
returns a value of type a. -/
inductive PyResult (e a : Type) where
  | raised (err : e)
  | returned (v : a)
deriving DecidableEq, Repr

/-- A chat message as exchanged with the LLM endpoint: a dict with a
role field and a content field. -/
structure ChatMsg where
  role : String
  content : String
deriving DecidableEq, Repr

/-- The message object inside one streamed frame, as read by chat via
body.get with defaults: both fields may be absent. -/
structure StreamMsg where
  role : Option String
  content : Option String
deriving DecidableEq, Repr

/-- One newline-delimited JSON frame of the streamed chat response.
A field set to none models the key being absent from the JSON object. -/
structure Frame where
  error : Option String
  done : Option Bool
  message : Option StreamMsg
deriving DecidableEq, Repr

/-- Exceptions the streaming loop of chat can raise: the explicit
raise on an error frame, the unbound-local failure when the done frame
arrives before any done-false frame assigned the local message, and the
attribute failure when a done-false frame has no message object so that
the string default of body.get lacks a get method. -/
inductive ChatError where
  | streamError (msg : String)
  | nameError
  | attributeError
deriving DecidableEq, Repr

/-- The Python value chat can produce on a normal return: falling off the
loop yields None, the done branch returns the accumulated text.  The
record constructor vMsg exists to express the shape a role-tagged chat
message result would have; the loop never builds it. -/
inductive PyVal where
  | vNone
  | vStr (s : String)
  | vMsg (role : String) (content : String)
deriving DecidableEq, Repr

/-- The body of the for-loop over r.iter_lines in chat, one frame at a
time.  State: the accumulated output string and the current binding of
the local variable message (none while still unassigned). -/
def processStream : List Frame → String → Option StreamMsg → PyResult ChatError PyVal
  | [], _, _ => .returned .vNone
  | body :: rest, output, lastMsg =>
    match body.error with
    | some e => .raised (.streamError e)
    | none =>
      match body.done with
      | some false =>
        match body.message with
        | none => .raised .attributeError
        | some m => processStream rest (output ++ m.content.getD "") (some m)
      | some true =>
        match lastMsg with
        | none => .raised .nameError
        | some _ => .returned (.vStr output)
      | none => processStream rest output lastMsg

/-- The fixed system message chat inserts at index 0 of its argument. -/
def systemMessage : ChatMsg :=
  { role := "system"
  , content := "Messages coming to you will have the format: <user id>:<message>. Your name is BeeBrain and you are slack chat bot. Keep answers as short as possible, friendly. You can reply without saying your name." }

/-- Python list.insert: xs.insert(i, x) keeps the first i elements, puts
x, then the rest. -/
def pyListInsert (i : Nat) (x : a) (xs : List a) : List a :=
  xs.take i ++ x :: xs.drop i

/-- Everything observable about one call to chat: the state of the
mutated caller sequence after the call, the message list carried by the
HTTP request, and the value returned or exception raised by the
streaming loop. -/
structure ChatOutcome where
  messagesAfter : List ChatMsg
  requestMessages : List ChatMsg
  result : PyResult ChatError PyVal
deriving Repr

/-- chat from src/llmInteract.py.  The in-place messages.insert(0, ...)
is modelled by exposing the post-mutation sequence; the streamed
response body is the list of frames the server sends. -/
def chat (messages : List ChatMsg) (stream : List Frame) : ChatOutcome :=
  let sent := pyListInsert 0 systemMessage messages
  { messagesAfter := sent
  , requestMessages := sent
  , result := processStream stream "" none }

/-- A done-false frame carrying one content fragment. -/
def mkFragmentFrame (roleStr content : String) : Frame :=
  { error := none, done := some false, message := some { role := some roleStr, content := some content } }

/-- The terminal done-true frame, with its own (ignored) content. -/
def mkDoneFrame (roleStr content : String) : Frame :=
  { error := none, done := some true, message := some { role := some roleStr, content := some content } }

/-- A well-formed streamed response: fragments with done false, then a
single done-true frame. -/
def mkStream (roleStr : String) (frags : List String) (lastContent : String) : List Frame :=
  frags.map (mkFragmentFrame roleStr) ++ [mkDoneFrame roleStr lastContent]

/-- Left-to-right concatenation of a list of fragments. -/
def concatAll (l : List String) : String :=
  l.foldl (fun acc s => acc ++ s) ""

/-- The three-frame stream of the specification example. -/
def helloStream : List Frame := mkStream "assistant" ["Hel", "lo"] ""

/-- Tests whether a chat result is a returned role-tagged record. -/
def isMsgResult : PyResult ChatError PyVal → Bool
  | .returned (.vMsg _ _) => true
  | _ => false

/-- A frame carrying an error field. -/
def errFrame : Frame := { error := some "boom", done := none, message := none }

/-- A benign frame for the streaming loop: no error field, not a
done-true frame, and if it is a done-false frame it carries a message
object.  Processing such a frame neither returns nor raises. -/
def BenignFrame (g : Frame) : Prop :=
  g.error = none ∧ g.done ≠ some true ∧ (g.done = some false → g.message ≠ none)

instance (g : Frame) : Decidable (BenignFrame g) := by
  unfold BenignFrame; infer_instance

/-- One raw message of a thread as delivered by conversations_replies,
read via item.get with empty-string defaults. -/
structure ThreadMsg where
  user : Option String
  text : Option String
deriving DecidableEq, Repr

/-- Outcome of the underlying conversations_replies call: either the
list of thread messages, or a raised SlackApiError whose response
carries the platform error text. -/
inductive RepliesResult where
  | ok (messages : List ThreadMsg)
  | apiError (err : String)
deriving Repr

/-- Exceptions escaping the slack helpers: the assert on the error
field of a caught SlackApiError fails when that field is falsy. -/
inductive SlackErr where
  | assertionError
deriving DecidableEq, Repr

/-- fetch_thread_message from src/slack_utilities.py.  The platform
call is an oracle from channel, thread timestamp and limit to its
outcome.  On success each item becomes a user-role chat message whose
content is the raw user identifier, a colon-space, and the text; on a
caught SlackApiError the assert checks the error text is truthy and
the helper returns the empty list. -/
def fetch_thread_message (replies : String → String → Nat → RepliesResult)
    (channel thread_ts : String) (max_messages : Nat := 50) :
    PyResult SlackErr (List ChatMsg) :=
  match replies channel thread_ts max_messages with
  | .ok msgs =>
      .returned (msgs.map fun item =>
        { role := "user", content := item.user.getD "" ++ ": " ++ item.text.getD "" })
  | .apiError e => if e = "" then .raised .assertionError else .returned []

/-- The slice of an inbound Slack event body.get("event", ...) that
handle_messages reads; none models an absent key. -/
structure SlackEvent where
  channel : Option String
  ts : Option String
  thread_ts : Option String
deriving DecidableEq, Repr

/-- The default used by body.get("event", ...): an empty dict. -/
def emptyEvent : SlackEvent := { channel := none, ts := none, thread_ts := none }

/-- An inbound message event body as read by handle_messages. -/
structure MsgBody where
  event : Option SlackEvent
  text : Option String
deriving DecidableEq, Repr

/-- Observable external calls made while handling one message event. -/
inductive Action where
  | fetchThread (channel thread_ts : String)
  | llmChat (history : List ChatMsg)
  | postMessage (channel : String) (text : String) (thread_ts : Option String)
  | removeReaction (channel ts emoji : String)
deriving DecidableEq, Repr

/-- handle_messages from src/beebrain_app.py, as the trace of external
calls it performs.  The thread fetch is the real fetch_thread_message
model over the replies oracle; the chat call is an oracle from the
fetched history to the outcome of the LLM round trip.  When a callee
raises, the handler propagates and the remaining calls do not happen. -/
def handle_messages (replies : String → String → Nat → RepliesResult)
    (chatCall : List ChatMsg → PyResult ChatError String) (body : MsgBody) : List Action :=
  let event := body.event.getD emptyEvent
  let channel := event.channel.getD ""
  match event.thread_ts with
  | none => []
  | some parent_ts =>
    let ts := event.ts.getD ""
    match fetch_thread_message replies channel parent_ts 50 with
    | .raised _ => [.fetchThread channel parent_ts]
    | .returned history =>
      match chatCall history with
      | .raised _ => [.fetchThread channel parent_ts, .llmChat history]
      | .returned response =>
          [ .fetchThread channel parent_ts
          , .llmChat history
          , .postMessage channel response (some parent_ts)
          , .removeReaction channel ts "eyes" ]

/-- A JSON value as it can appear in the challenge field of a posted
body; enough structure to express Python truthiness. -/
inductive JsonVal where
  | jNull
  | jBool (b : Bool)
  | jNum (n : Int)
  | jStr (s : String)
deriving DecidableEq, Repr

/-- Python truthiness of a JSON value. -/
def pyTruthy : JsonVal → Bool
  | .jNull => false
  | .jBool b => b
  | .jNum n => n != 0
  | .jStr s => s != ""

/-- What the POST root route does with a body: echo the challenge
value, or hand the request to the Slack event router. -/
inductive IndexResponse where
  | challengeEcho (v : JsonVal)
  | delegated
deriving DecidableEq, Repr

/-- index from src/beebrain_app.py: data.get("challenge", False) is
tested for truthiness; only a truthy value is echoed, everything else
goes to handler.handle.  The argument is the challenge entry of the
posted JSON body, none when the key is absent. -/
def index (challenge : Option JsonVal) : IndexResponse :=
  match challenge with
  | none => .delegated
  | some v => if pyTruthy v then .challengeEcho v else .delegated

mutual

/-- The JSON values generate_json_description builds: strings, objects
with ordered fields, arrays. -/
inductive Json where
  | str (s : String)
  | obj (fields : JFields)
  | arr (items : JList)

/-- Ordered fields of a JSON object (insertion order of a Python dict). -/
inductive JFields where
  | nil
  | cons (k : String) (v : Json) (rest : JFields)

/-- Ordered items of a JSON array. -/
inductive JList where
  | nil
  | cons (v : Json) (rest : JList)

end

/-- One hexadecimal digit, lowercase. -/
def hexDigit (n : Nat) : String :=
  if n < 10 then String.singleton (Char.ofNat (48 + n)) else String.singleton (Char.ofNat (87 + n))

/-- Four hexadecimal digits for a unicode escape. -/
def hex4 (n : Nat) : String :=
  hexDigit (n / 4096 % 16) ++ hexDigit (n / 256 % 16) ++ hexDigit (n / 16 % 16) ++ hexDigit (n % 16)

/-- How json.dumps renders one character inside a string literal, with
the default ensure-ascii behaviour. -/
def jsonEscapeChar (c : Char) : String :=
  if c = Char.ofNat 34 then "\\\""
  else if c = Char.ofNat 92 then "\\\\"
  else if c = Char.ofNat 10 then "\\n"
  else if c = Char.ofNat 9 then "\\t"
  else if c = Char.ofNat 13 then "\\r"
  else if c = Char.ofNat 8 then "\\b"
  else if c = Char.ofNat 12 then "\\f"
  else if c.toNat < 32 || c.toNat > 126 then "\\u" ++ hex4 c.toNat
  else String.singleton c

/-- json.dumps rendering of a string. -/
def jsonQuote (s : String) : String :=
  "\"" ++ s.data.foldl (fun acc c => acc ++ jsonEscapeChar c) "" ++ "\""

mutual

/-- json.dumps(value, indent=2): pad is the indentation of the line on
which the closing bracket of the current value sits. -/
def dumpsVal (pad : String) : Json → String
  | .str s => jsonQuote s
  | .obj .nil => "\x7b\x7d"
  | .obj (.cons k v rest) =>
      "\x7b\n" ++ dumpsFields (pad ++ "  ") (.cons k v rest) ++ "\n" ++ pad ++ "\x7d"
  | .arr .nil => "[]"
  | .arr (.cons v rest) =>
      "[\n" ++ dumpsItems (pad ++ "  ") (.cons v rest) ++ "\n" ++ pad ++ "]"

/-- The comma-newline separated field lines of an object. -/
def dumpsFields (pad : String) : JFields → String
  | .nil => ""
  | .cons k v .nil => pad ++ jsonQuote k ++ ": " ++ dumpsVal pad v
  | .cons k v (.cons k2 v2 rest) =>
      pad ++ jsonQuote k ++ ": " ++ dumpsVal pad v ++ ",\n" ++ dumpsFields pad (.cons k2 v2 rest)

/-- The comma-newline separated item lines of an array. -/
def dumpsItems (pad : String) : JList → String
  | .nil => ""
  | .cons v .nil => pad ++ dumpsVal pad v
  | .cons v (.cons v2 rest) =>
      pad ++ dumpsVal pad v ++ ",\n" ++ dumpsItems pad (.cons v2 rest)

end

/-- Lookup of a key among ordered object fields. -/
def jLookup : JFields → String → Option Json
  | .nil, _ => none
  | .cons k v rest, key => if k = key then some v else jLookup rest key

/-- Field access on a JSON value; none when it is not an object or the
key is missing. -/
def jGet (j : Json) (key : String) : Option Json :=
  match j with
  | .obj fs => jLookup fs key
  | _ => none

/-- A Python function as generate_json_description introspects it: its
name, its parameters in declaration order each with the str rendering
of its type hint when annotated, the str rendering of the return hint,
and the description attached by the aitool decorator when tagged. -/
structure PyFunc where
  name : String
  params : List (String × Option String)
  returnHint : Option String
  aitoolDescription : Option String
deriving DecidableEq, Repr

/-- The aitool decorator: attaches the description, leaving the rest of
the function untouched. -/
def aitool (description : String) (f : PyFunc) : PyFunc :=
  { f with aitoolDescription := some description }

/-- Exception raised by generate_json_description on an untagged
function. -/
inductive ToolTagErr where
  | valueError (msg : String)
deriving DecidableEq, Repr

/-- The properties object: one field per parameter, mapping its name to
its type text, with the fallback Any for a missing hint. -/
def paramsFields : List (String × Option String) → JFields
  | [] => .nil
  | (n, h) :: rest => .cons n (.str (h.getD "Any")) (paramsFields rest)

/-- The input_params array: one object per parameter with name and type
fields. -/
def paramsItems : List (String × Option String) → JList
  | [] => .nil
  | (n, h) :: rest =>
      .cons (.obj (.cons "name" (.str n) (.cons "type" (.str (h.getD "Any")) .nil)))
        (paramsItems rest)

/-- The descriptor dict generate_json_description assembles for a
function carrying the given description, in insertion order. -/
def descriptorJson (f : PyFunc) (desc : String) : Json :=
  .obj (.cons "type" (.str "function")
    (.cons "function" (.obj
      (.cons "name" (.str f.name)
      (.cons "description" (.str desc)
      (.cons "parameters" (.obj
        (.cons "type" (.str "object")
        (.cons "properties" (.obj (paramsFields f.params)) .nil)))
      (.cons "input_params" (.arr (paramsItems f.params))
      (.cons "output_type" (.str (f.returnHint.getD "Any")) .nil))))))
    .nil))

/-- generate_json_description from src/AiToolTag.py: raise a ValueError
naming the function when it is untagged, otherwise serialize the
descriptor as 2-space-indented JSON text. -/
def generate_json_description (f : PyFunc) : PyResult ToolTagErr String :=
  match f.aitoolDescription with
  | none => .raised (.valueError ("Function " ++ f.name ++ " is not tagged with @AITool"))
  | some d => .returned (dumpsVal "" (descriptorJson f d))

/-- A single quote character, kept out of string literals. -/
def sq : String := String.singleton (Char.ofNat 39)

/-- str(int) in Python. -/
def strInt : String := "<class " ++ sq ++ "int" ++ sq ++ ">"

/-- The example function add(a: int, b: int) -> int before tagging. -/
def addUntagged : PyFunc :=
  { name := "add"
  , params := [("a", some strInt), ("b", some strInt)]
  , returnHint := some strInt
  , aitoolDescription := none }

/-- The description text of the add example. -/
def addDesc : String := "Adds two numbers and returns the result"

/-- add as declared in src/AiToolTag.py: tagged with its description. -/
def add : PyFunc := aitool addDesc addUntagged

/-- The descriptor dict built for add. -/
def addDescriptor : Json := descriptorJson add addDesc

/-- The exact 2-space-indented JSON text json.dumps produces for the
descriptor of add. -/
def addJsonText : String :=
  "\x7b\n  \"type\": \"function\",\n  \"function\": \x7b\n    \"name\": \"add\",\n    \"description\": \"Adds two numbers and returns the result\",\n    \"parameters\": \x7b\n      \"type\": \"object\",\n      \"properties\": \x7b\n        \"a\": \""
    ++ strInt ++ "\",\n        \"b\": \"" ++ strInt
    ++ "\"\n      \x7d\n    \x7d,\n    \"input_params\": [\n      \x7b\n        \"name\": \"a\",\n        \"type\": \""
    ++ strInt ++ "\"\n      \x7d,\n      \x7b\n        \"name\": \"b\",\n        \"type\": \""
    ++ strInt ++ "\"\n      \x7d\n    ],\n    \"output_type\": \"" ++ strInt ++ "\"\n  \x7d\n\x7d"

/-- A function never passed through the aitool decorator. -/
def untaggedFunc : PyFunc :=
  { name := "greet_raw", params := [("name", none)], returnHint := none, aitoolDescription := none }

/-- Witness fixture: a replies oracle that succeeds with an empty
thread. -/
def fetchOracleOk : String → String → Nat → RepliesResult := fun _ _ _ => .ok []

/-- Witness fixture: a replies oracle that raises a SlackApiError with
the usual nonempty platform error text. -/
def fetchOracleRaise : String → String → Nat → RepliesResult :=
  fun _ _ _ => .apiError "channel_not_found"

/-- Witness fixture: a chat call that returns normally. -/
def chatCallOk : List ChatMsg → PyResult ChatError String := fun _ => .returned "Sure thing"

/-- Witness fixture: a threaded inbound message event. -/
def sampleThreadBody : MsgBody :=
  { event := some { channel := some "C1", ts := some "2.0", thread_ts := some "1.0" }
  , text := some "hey" }

/-- Witness fixture: an inbound message event without thread_ts. -/
def samplePlainBody : MsgBody :=
  { event := some { channel := some "C1", ts := some "2.0", thread_ts := none }
  , text := some "hey" }

/-- Helper: on a well-formed tail of fragments followed by the done
frame, with the loop local message already assigned, the loop returns
the accumulator extended by every remaining fragment in order. -/
theorem processStream_fragments (roleStr lastContent : String) :
    ∀ (frags : List String) (out : String) (m : StreamMsg),
      processStream (frags.map (mkFragmentFrame roleStr) ++ [mkDoneFrame roleStr lastContent]) out (some m)
        = .returned (.vStr (frags.foldl (fun acc s => acc ++ s) out)) := by
  intro frags
  induction frags with
  | nil => intro out m; rfl
  | cons c cs ih => intro out m; exact ih (out ++ c) { role := some roleStr, content := some c }

/-- Helper: the streaming loop never produces a role-tagged record. -/
theorem processStream_never_vMsg :
    ∀ (frames : List Frame) (out : String) (lastMsg : Option StreamMsg) (r c : String),
      processStream frames out lastMsg ≠ .returned (.vMsg r c) := by
  intro frames
  induction frames with
  | nil => intro out lastMsg r c h; simp [processStream] at h
  | cons f rest ih =>
    intro out lastMsg r c
    obtain ⟨fe, fd, fm⟩ := f
    cases fe with
    | some e => simp [processStream]
    | none =>
      cases fd with
      | none => exact ih out lastMsg r c
      | some b =>
        cases b with
        | false =>
          cases fm with
          | none => simp [processStream]
          | some m => exact ih (out ++ m.content.getD "") (some m) r c
        | true => cases lastMsg <;> simp [processStream]

/-- Helper: a normal string return of the streaming loop, started with
the local message unassigned, requires a done-false frame somewhere in
the stream. -/
theorem processStream_return_needs_fragment :
    ∀ (frames : List Frame) (out : String) (s : String),
      processStream frames out none = .returned (.vStr s) → ∃ g ∈ frames, g.done = some false := by
  intro frames
  induction frames with
  | nil => intro out s h; simp [processStream] at h
  | cons f rest ih =>
    intro out s h
    obtain ⟨fe, fd, fm⟩ := f
    cases fe with
    | some e => simp [processStream] at h
    | none =>
      cases fd with
      | none =>
        obtain ⟨g, hg, hgd⟩ := ih out s h
        exact ⟨g, List.mem_cons_of_mem _ hg, hgd⟩
      | some b =>
        cases b with
        | false => exact ⟨⟨none, some false, fm⟩, List.mem_cons_self _ _, rfl⟩
        | true => simp [processStream] at h

/-- Helper: once every frame before an error frame is benign, the loop
raises exactly that error, whatever follows and whatever the state. -/
theorem processStream_error_frame :
    ∀ (pre : List Frame) (f : Frame) (e : String) (post : List Frame),
      f.error = some e → (∀ g ∈ pre, BenignFrame g) →
      ∀ (out : String) (lastMsg : Option StreamMsg),
        processStream (pre ++ f :: post) out lastMsg = .raised (.streamError e) := by
  intro pre
  induction pre with
  | nil =>
    intro f e post hf _ out lastMsg
    obtain ⟨fe, fd, fm⟩ := f
    simp only [Frame.error] at hf
    subst hf
    simp [processStream]
  | cons g pre ih =>
    intro f e post hf hpre out lastMsg
    obtain ⟨hge, hgd, hgm⟩ := hpre g (List.mem_cons_self _ _)
    have hpre2 : ∀ x ∈ pre, BenignFrame x := fun x hx => hpre x (List.mem_cons_of_mem _ hx)
    obtain ⟨ge, gd, gm⟩ := g
    simp only [Frame.error, Frame.done, Frame.message] at hge hgd hgm
    subst hge
    cases gd with
    | none => exact ih f e post hf hpre2 out lastMsg
    | some b =>
      cases b with
      | true => exact absurd rfl hgd
      | false =>
        cases gm with
        | none => exact absurd rfl (hgm rfl)
        | some m => exact ih f e post hf hpre2 (out ++ m.content.getD "") (some m)

/-- C1 counterexample: on the three-frame example stream consumed to
completion, chat returns the bare string Hello, not a role-tagged
record, refuting the claim that the return value is a Chat Message
record with a role field. -/
theorem chat_record_result_cx :
    (chat [] helloStream).result = .returned (.vStr "Hello") ∧
    isMsgResult (chat [] helloStream).result = false :=
  ⟨rfl, rfl⟩

/-- C1 (amended): for every streamed response consumed to completion,
chat returns the bare accumulated content text as a plain string; it
never returns a role-tagged record, on any stream.  The role carried by
the frames of the server is not part of the return value. -/
theorem chat_returns_bare_text (messages : List ChatMsg) (roleStr : String)
    (frags : List String) (lastContent : String) (h : frags ≠ []) :
    (∃ s, (chat messages (mkStream roleStr frags lastContent)).result = .returned (.vStr s)) ∧
    ∀ (frames : List Frame) (r c : String),
      (chat messages frames).result ≠ .returned (.vMsg r c) := by
  constructor
  · obtain ⟨c, cs, rfl⟩ := List.exists_cons_of_ne_nil h
    exact ⟨concatAll (c :: cs),
      processStream_fragments roleStr lastContent cs ("" ++ c) { role := some roleStr, content := some c }⟩
  · intro frames r c
    exact processStream_never_vMsg frames "" none r c

/-- C1 witness: the amended statement at the concrete example stream. -/
theorem chat_returns_bare_text_witness :
    ∃ s, (chat [] (mkStream "assistant" ["Hel", "lo"] "")).result = .returned (.vStr s) :=
  (chat_returns_bare_text [] "assistant" ["Hel", "lo"] "" (by simp)).1

/-- C2 counterexample: with zero done-false frames before the done-true
frame, chat raises the unbound-local failure instead of returning the
empty concatenation, refuting the zero-or-more part of the claim. -/
theorem chat_zero_fragment_stream_cx :
    (chat [] (mkStream "assistant" [] "")).result = .raised .nameError ∧
    (chat [] (mkStream "assistant" [] "")).result ≠ .returned (.vStr "") :=
  ⟨rfl, by decide⟩

/-- C2 (amended): for a streamed response of one or more done-false
frames followed by a done-true frame and no error frames, chat returns
the concatenation, in arrival order, of the content fragments of the
done-false frames, the content of the final frame being ignored; in
particular the three-frame example stream yields Hello. -/
theorem chat_accumulates_fragments (messages : List ChatMsg) (roleStr : String)
    (frags : List String) (lastContent : String) (h : frags ≠ []) :
    (chat messages (mkStream roleStr frags lastContent)).result = .returned (.vStr (concatAll frags)) ∧
    (chat [] helloStream).result = .returned (.vStr "Hello") := by
  constructor
  · obtain ⟨c, cs, rfl⟩ := List.exists_cons_of_ne_nil h
    exact processStream_fragments roleStr lastContent cs ("" ++ c) { role := some roleStr, content := some c }
  · rfl

/-- C2 witness: the amended statement on the concrete three-fragment
example of the specification. -/
theorem chat_accumulates_fragments_witness :
    (chat [] helloStream).result = .returned (.vStr "Hello") :=
  (chat_accumulates_fragments [] "assistant" ["Hel", "lo"] "" (by simp)).2

/-- C3: a streamed frame carrying an error field makes chat raise with
that error text as soon as the frame is reached, and no frame after it
is processed: the outcome does not depend on what follows the error
frame. -/
theorem chat_error_frame_fails (messages : List ChatMsg) (pre post : List Frame)
    (f : Frame) (e : String) (hf : f.error = some e) (hpre : ∀ g ∈ pre, BenignFrame g) :
    (chat messages (pre ++ f :: post)).result = .raised (.streamError e) ∧
    (chat messages (pre ++ f :: post)).result = (chat messages (pre ++ [f])).result := by
  have h1 := processStream_error_frame pre f e post hf hpre "" none
  have h2 := processStream_error_frame pre f e [] hf hpre "" none
  exact ⟨h1, h1.trans h2.symm⟩

/-- C3 witness: a fragment, then an error frame, then a done frame; the
error surfaces and the trailing done frame changes nothing. -/
theorem chat_error_frame_fails_witness :
    (chat [] ([mkFragmentFrame "assistant" "He"] ++ errFrame :: [mkDoneFrame "assistant" "x"])).result
      = .raised (.streamError "boom") :=
  (chat_error_frame_fails [] [mkFragmentFrame "assistant" "He"] [mkDoneFrame "assistant" "x"]
    errFrame "boom" rfl (by decide)).1

/-- C4: chat inserts the fixed system message at position 0 of the
sequence of the caller before the request goes out, so afterwards the
sequence of the caller starts with that system message followed by the
original messages in order, and the message list of the request is that
same mutated sequence, not a copy. -/
theorem chat_injects_system_message (messages : List ChatMsg) (stream : List Frame) :
    (chat messages stream).messagesAfter = systemMessage :: messages ∧
    (chat messages stream).requestMessages = (chat messages stream).messagesAfter :=
  ⟨rfl, rfl⟩

/-- C5: an inbound message event without thread_ts triggers no external
call at all; one with thread_ts triggers exactly one thread fetch, then
one chat call on the fetched history, then one post of the reply into
the same thread, in that order, whenever both callees return
normally. -/
theorem handle_messages_routing (replies : String → String → Nat → RepliesResult)
    (chatCall : List ChatMsg → PyResult ChatError String) (body : MsgBody) :
    ((body.event.getD emptyEvent).thread_ts = none →
      handle_messages replies chatCall body = []) ∧
    (∀ (p : String) (history : List ChatMsg) (response : String),
      (body.event.getD emptyEvent).thread_ts = some p →
      fetch_thread_message replies ((body.event.getD emptyEvent).channel.getD "") p 50
        = .returned history →
      chatCall history = .returned response →
      handle_messages replies chatCall body =
        [ Action.fetchThread ((body.event.getD emptyEvent).channel.getD "") p
        , Action.llmChat history
        , Action.postMessage ((body.event.getD emptyEvent).channel.getD "") response (some p)
        , Action.removeReaction ((body.event.getD emptyEvent).channel.getD "")
            ((body.event.getD emptyEvent).ts.getD "") "eyes" ]) := by
  constructor
  · intro h
    simp [handle_messages, h]
  · intro p history response hp hf hc
    simp [handle_messages, hp, hf, hc]

/-- C5 witness: a concrete threaded event produces the four calls in
order, and the same event without thread_ts produces none. -/
theorem handle_messages_routing_witness :
    handle_messages fetchOracleOk chatCallOk sampleThreadBody =
      [ Action.fetchThread "C1" "1.0", Action.llmChat [],
        Action.postMessage "C1" "Sure thing" (some "1.0"),
        Action.removeReaction "C1" "2.0" "eyes" ] ∧
    handle_messages fetchOracleOk chatCallOk samplePlainBody = [] :=
  ⟨(handle_messages_routing fetchOracleOk chatCallOk sampleThreadBody).2
      "1.0" [] "Sure thing" rfl rfl rfl,
   (handle_messages_routing fetchOracleOk chatCallOk samplePlainBody).1 rfl⟩

/-- C6 counterexample: a body whose challenge field holds the empty
string contains the field, yet the route delegates to the event router
instead of echoing it, refuting the claim for falsy challenge
values. -/
theorem index_empty_challenge_cx :
    index (some (.jStr "")) = IndexResponse.delegated ∧
    index (some (.jStr "")) ≠ IndexResponse.challengeEcho (.jStr "") :=
  ⟨rfl, by decide⟩

/-- C6 (amended): a posted body whose challenge field holds a truthy
value (any non-empty string in particular) is answered with exactly the
echo of that value and nothing else; a body without the field, or with
a falsy value, is delegated to the event router. -/
theorem index_challenge_echo (v : JsonVal) (h : pyTruthy v = true) :
    index (some v) = IndexResponse.challengeEcho v ∧
    index none = IndexResponse.delegated ∧
    ∀ w : JsonVal, pyTruthy w = false → index (some w) = IndexResponse.delegated := by
  refine ⟨by simp [index, h], rfl, ?_⟩
  intro w hw
  simp [index, hw]

/-- C6 witness: the handshake example value abc123 is echoed. -/
theorem index_challenge_echo_witness :
    index (some (.jStr "abc123")) = IndexResponse.challengeEcho (.jStr "abc123") :=
  (index_challenge_echo (.jStr "abc123") (by decide)).1

/-- C7: whenever the underlying conversations_replies call raises a
platform error, for every channel and thread timestamp, the helper
returns the empty list instead of propagating; the platform error text
is nonempty, as the platform API guarantees, so the assert on it
passes. -/
theorem fetch_thread_fallback (replies : String → String → Nat → RepliesResult)
    (channel thread_ts : String) (limit : Nat) (e : String)
    (hraise : replies channel thread_ts limit = .apiError e) (he : e ≠ "") :
    fetch_thread_message replies channel thread_ts limit = .returned [] := by
  simp [fetch_thread_message, hraise, he]

/-- C7 witness: a raised channel-not-found error is swallowed and the
empty sequence is returned. -/
theorem fetch_thread_fallback_witness :
    fetch_thread_message fetchOracleRaise "C9" "42.0" 50 = .returned [] :=
  fetch_thread_fallback fetchOracleRaise "C9" "42.0" 50 "channel_not_found" rfl (by decide)

set_option maxRecDepth 16384 in
/-- C8: on the tagged add function the generator returns exactly the
2-space-indented JSON text of the descriptor, whose function name is
add, whose description is the given text, whose properties object maps
a and b to the rendered int type, and whose output type is the rendered
int type. -/
theorem generate_add_descriptor :
    generate_json_description add = .returned addJsonText ∧
    (jGet addDescriptor "function").bind (fun j => jGet j "name") = some (.str "add") ∧
    (jGet addDescriptor "function").bind (fun j => jGet j "description") = some (.str addDesc) ∧
    ((jGet addDescriptor "function").bind (fun j => jGet j "parameters")).bind
        (fun j => jGet j "properties")
      = some (.obj (.cons "a" (.str strInt) (.cons "b" (.str strInt) .nil))) ∧
    (jGet addDescriptor "function").bind (fun j => jGet j "output_type") = some (.str strInt) :=
  ⟨rfl, rfl, rfl, rfl, rfl⟩

/-- C9: on every function lacking the attached description the
generator raises a ValueError whose message names the function, and it
never returns a descriptor for such a function. -/
theorem generate_untagged_fails (f : PyFunc) (h : f.aitoolDescription = none) :
    generate_json_description f
      = .raised (.valueError ("Function " ++ f.name ++ " is not tagged with @AITool")) ∧
    ∀ s : String, generate_json_description f ≠ .returned s := by
  constructor
  · simp [generate_json_description, h]
  · intro s
    simp [generate_json_description, h]

/-- C9 witness: the untagged example function is rejected with the
message naming it. -/
theorem generate_untagged_fails_witness :
    generate_json_description untaggedFunc
      = .raised (.valueError ("Function " ++ "greet_raw" ++ " is not tagged with @AITool")) :=
  (generate_untagged_fails untaggedFunc rfl).1

/-- C10: when the very first frame already has done true, chat raises
the unbound-local failure instead of returning an empty reply, and in
general a normal string return requires some done-false frame in the
stream. -/
theorem chat_immediate_done_fails (messages : List ChatMsg) (f : Frame) (rest : List Frame)
    (herr : f.error = none) (hdone : f.done = some true) :
    (chat messages (f :: rest)).result = .raised .nameError ∧
    ∀ (frames : List Frame) (s : String),
      (chat messages frames).result = .returned (.vStr s) → ∃ g ∈ frames, g.done = some false := by
  constructor
  · obtain ⟨fe, fd, fm⟩ := f
    simp only [Frame.error] at herr
    simp only [Frame.done] at hdone
    subst herr
    subst hdone
    rfl
  · intro frames s h
    exact processStream_return_needs_fragment frames "" s h

/-- C10 witness: a stream whose only frame is done true raises the
unbound-local failure. -/
theorem chat_immediate_done_fails_witness :
    (chat [] [mkDoneFrame "assistant" ""]).result = .raised .nameError :=
  (chat_immediate_done_fails [] (mkDoneFrame "assistant" "") [] rfl rfl).1

end BeeBrain
